import Mathlib

/-!
Verification development for the Ytapp repository (src/main.py), a Streamlit
web app that authorizes a Google account via OAuth 2.0 and fetches YouTube
Data API resources for display.

The Python source is shallowly embedded below.  External effects are made
explicit:
  * Streamlit display calls (st.write / st.radio / st.warning / ...) are
    recorded in an `Effects.displays` log;
  * every YouTube API request issued through a client's `request.execute()`
    is recorded in an `Effects.requests` log, tagged with the access token of
    the credentials the client was built from;
  * Python exceptions are modelled with `PyResult`;
  * the network-facing behaviour of the third-party libraries
    (`googleapiclient`'s request execution and `google_auth_oauthlib`'s
    `fetch_token`) is an oracle parameter of the page environment, so theorems
    quantify over every possible behaviour of the external API.
-/

namespace Ytapp

/-- A JSON value, the shape of YouTube Data API responses. -/
inductive Json where
  | null : Json
  | bool (b : Bool) : Json
  | num (n : Int) : Json
  | str (s : String) : Json
  | arr (elems : List Json) : Json
  | obj (fields : List (String × Json)) : Json

/-- A Python exception as the app distinguishes them: `googleapiclient.errors.HttpError`
versus any other `Exception`. -/
inductive PyExn where
  | httpError (msg : String) : PyExn
  | other (msg : String) : PyExn
deriving DecidableEq, Repr

/-- Result of running a piece of Python code: a value, or a raised exception. -/
inductive PyResult (α : Type) where
  | ok (a : α) : PyResult α
  | exn (e : PyExn) : PyResult α

/-- The parameters of one YouTube Data API list call, as assembled by the
`youtube.<resource>().list(...)` calls in src/main.py.  Parameters a call does
not pass are `none`. -/
structure ApiRequest where
  endpoint : String
  part : String
  myRating : Option String
  mine : Option Bool
  allThreadsRelatedToChannelId : Option Json
  maxResults : Option Nat

/-- What `request.execute()` can do: return a JSON response, raise an
`HttpError`, or raise some other exception.  This is the oracle type for the
external API's behaviour. -/
inductive ExecResult where
  | ok (response : Json) : ExecResult
  | httpError (msg : String) : ExecResult
  | otherError (msg : String) : ExecResult

/-- The credential bundle produced by the OAuth token exchange
(`flow.credentials` in the source): access token plus optional refresh token. -/
structure Credentials where
  token : String
  refreshToken : Option String

/-- An authenticated API client (`googleapiclient.discovery.build(...)`): the
credentials it was built from, plus the behaviour of executing a request with
those credentials. -/
structure Youtube where
  credentials : Credentials
  execute : ApiRequest → ExecResult

/-- One entry of the request log: which request was issued and under which
access token. -/
structure IssuedRequest where
  req : ApiRequest
  token : String

/-- A Streamlit display event. -/
inductive Display where
  | title (s : String) : Display
  | success (s : String) : Display
  | info (s : String) : Display
  | markdown (s : String) : Display
  | write (s : String) : Display
  | radio (label : String) (options : List String) : Display
  | warning (s : String) : Display
  | error (s : String) : Display
  | json (j : Json) : Display

/-- The observable effects of a page load: API requests issued and Streamlit
display events, each in order. -/
structure Effects where
  requests : List IssuedRequest
  displays : List Display

/-- Append one display event (an `st.<something>(...)` call). -/
def stDisplay (eff : Effects) (d : Display) : Effects :=
  ⟨eff.requests, eff.displays ++ [d]⟩

/-- `request.execute()`: log the request against the client's token, then
return the oracle's answer or raise the oracle's exception. -/
def issue (yt : Youtube) (req : ApiRequest) (eff : Effects) :
    PyResult Json × Effects :=
  let eff' : Effects := ⟨eff.requests ++ [⟨req, yt.credentials.token⟩], eff.displays⟩
  match yt.execute req with
  | .ok r => (.ok r, eff')
  | .httpError m => (.exn (.httpError m), eff')
  | .otherError m => (.exn (.other m), eff')

/-- Field lookup in a JSON object's field list (first match wins). -/
def lookupField : List (String × Json) → String → Option Json
  | [], _ => none
  | (k, v) :: rest, key => if k = key then some v else lookupField rest key

/-- Python `response.get(key, default)`: for a dict, the value at `key` or the
default; on a non-dict it raises (`AttributeError`). -/
def jsonGet (j : Json) (key : String) (default : Json) : PyResult Json :=
  match j with
  | .obj fields => .ok ((lookupField fields key).getD default)
  | _ => .exn (.other "AttributeError: object has no attribute get")

/-- Python truth-value testing (`if not items:`): `None`, `False`, `0`, and
empty strings/lists/dicts are falsy. -/
def Json.isFalsy : Json → Bool
  | .null => true
  | .bool b => !b
  | .num n => n == 0
  | .str s => s.isEmpty
  | .arr elems => elems.isEmpty
  | .obj fields => fields.isEmpty

/-- Python `items[0]`: first element of a list (or first character of a
string); raises on an empty sequence or a non-sequence. -/
def Json.index0 : Json → PyResult Json
  | .arr (x :: _) => .ok x
  | .arr [] => .exn (.other "IndexError: list index out of range")
  | .str s =>
    match s.toList with
    | c :: _ => .ok (.str (String.mk [c]))
    | [] => .exn (.other "IndexError: string index out of range")
  | _ => .exn (.other "TypeError: object is not subscriptable")

/-- Python `item["id"]`: value at a string key of a dict; raises `KeyError` if
the key is absent and `TypeError` on a non-dict. -/
def Json.subscript (j : Json) (key : String) : PyResult Json :=
  match j with
  | .obj fields =>
    match lookupField fields key with
    | some v => .ok v
    | none => .exn (.other ("KeyError: " ++ key))
  | _ => .exn (.other "TypeError: object is not subscriptable")

/-- The request built by `fetch_liked_videos`:
`youtube.videos().list(part="snippet,contentDetails", myRating="like", maxResults=10)`. -/
def likedVideosRequest : ApiRequest :=
  ⟨"videos", "snippet,contentDetails", some "like", none, none, some 10⟩

/-- The request built by `fetch_subscriptions`:
`youtube.subscriptions().list(part="snippet,contentDetails", mine=True, maxResults=10)`. -/
def subscriptionsRequest : ApiRequest :=
  ⟨"subscriptions", "snippet,contentDetails", none, some true, none, some 10⟩

/-- The request built by `fetch_playlists`:
`youtube.playlists().list(part="snippet,contentDetails", mine=True, maxResults=10)`. -/
def playlistsRequest : ApiRequest :=
  ⟨"playlists", "snippet,contentDetails", none, some true, none, some 10⟩

/-- The channel-id lookup in `fetch_channel_comments`:
`youtube.channels().list(part="id", mine=True)` (no maxResults). -/
def channelsListRequest : ApiRequest :=
  ⟨"channels", "id", none, some true, none, none⟩

/-- The comment-threads request in `fetch_channel_comments`:
`youtube.commentThreads().list(part="snippet", allThreadsRelatedToChannelId=channel_id, maxResults=10)`. -/
def commentThreadsRequest (channelId : Json) : ApiRequest :=
  ⟨"commentThreads", "snippet", none, none, some channelId, some 10⟩

/-- `fetch_liked_videos(youtube)` from src/main.py. -/
def fetch_liked_videos (yt : Youtube) (eff : Effects) : PyResult Json × Effects :=
  issue yt likedVideosRequest eff

/-- `fetch_subscriptions(youtube)` from src/main.py. -/
def fetch_subscriptions (yt : Youtube) (eff : Effects) : PyResult Json × Effects :=
  issue yt subscriptionsRequest eff

/-- `fetch_playlists(youtube)` from src/main.py. -/
def fetch_playlists (yt : Youtube) (eff : Effects) : PyResult Json × Effects :=
  issue yt playlistsRequest eff

/-- `fetch_channel_comments(youtube)` from src/main.py: look up the user's
channel id; if no channel, warn and return `None`; otherwise fetch the
channel's comment threads. -/
def fetch_channel_comments (yt : Youtube) (eff : Effects) :
    PyResult (Option Json) × Effects :=
  match issue yt channelsListRequest eff with
  | (.exn e, eff1) => (.exn e, eff1)
  | (.ok channelsResponse, eff1) =>
    match jsonGet channelsResponse "items" (Json.arr []) with
    | .exn e => (.exn e, eff1)
    | .ok items =>
      if items.isFalsy then
        (.ok none, stDisplay eff1 (.warning "No channel found for this account."))
      else
        match items.index0 with
        | .exn e => (.exn e, eff1)
        | .ok item0 =>
          match item0.subscript "id" with
          | .exn e => (.exn e, eff1)
          | .ok channelId =>
            match issue yt (commentThreadsRequest channelId) eff1 with
            | (.exn e, eff2) => (.exn e, eff2)
            | (.ok r, eff2) => (.ok (some r), eff2)

/-- The five user-selectable labels passed to `st.radio` in `show_data_options`. -/
def dataOptions : List String :=
  ["Liked Videos", "Comments", "Shares (Placeholder)", "Playlists", "Subscriptions"]

/-- Outcome of the body of the `try:` block in `show_data_options` up to the
point where `response` has been assigned: either the function returned early
(Shares placeholder / invalid option), or `response` holds the fetched value
(`none` models Python `None`). -/
inductive TryOutcome where
  | returned : TryOutcome
  | gotResponse (r : Option Json) : TryOutcome

/-- The `if option == ...` chain inside the `try:` block of
`show_data_options`, up to the assignment of `response` (or an early return),
together with the exceptions the fetches may raise. -/
def fetchBody (yt : Youtube) (option : String) (eff : Effects) :
    PyResult TryOutcome × Effects :=
  if option = "Liked Videos" then
    match fetch_liked_videos yt eff with
    | (.ok r, eff1) => (.ok (.gotResponse (some r)), eff1)
    | (.exn e, eff1) => (.exn e, eff1)
  else if option = "Comments" then
    match fetch_channel_comments yt eff with
    | (.ok r, eff1) => (.ok (.gotResponse r), eff1)
    | (.exn e, eff1) => (.exn e, eff1)
  else if option = "Shares (Placeholder)" then
    (.ok .returned,
     stDisplay eff (.warning "YouTube API does not provide direct 'Shares' data."))
  else if option = "Playlists" then
    match fetch_playlists yt eff with
    | (.ok r, eff1) => (.ok (.gotResponse (some r)), eff1)
    | (.exn e, eff1) => (.exn e, eff1)
  else if option = "Subscriptions" then
    match fetch_subscriptions yt eff with
    | (.ok r, eff1) => (.ok (.gotResponse (some r)), eff1)
    | (.exn e, eff1) => (.exn e, eff1)
  else
    (.ok .returned, stDisplay eff (.error "Invalid option selected."))

/-- The tail of `show_data_options` after `response` is assigned, together
with the surrounding `except` clauses: render `st.json(response)` or the
no-data warning, or convert an `HttpError` into an "HTTP error: ..." message
and any other exception into an "Unexpected error: ..." message. -/
def renderOutcome (out : PyResult TryOutcome × Effects) : Effects :=
  match out with
  | (.ok .returned, eff2) => eff2
  | (.ok (.gotResponse (some r)), eff2) => stDisplay eff2 (.json r)
  | (.ok (.gotResponse none), eff2) =>
    stDisplay eff2 (.warning "No data returned. Possibly the data is private or unavailable.")
  | (.exn (.httpError m), eff2) => stDisplay eff2 (.error ("HTTP error: " ++ m))
  | (.exn (.other m), eff2) => stDisplay eff2 (.error ("Unexpected error: " ++ m))

/-- `show_data_options(youtube)` from src/main.py.  `option` is the value the
`st.radio` widget returns (the user's selection) and `fetchPressed` is the
value of `st.button("Fetch Data")` on this page run. -/
def show_data_options (yt : Youtube) (option : String) (fetchPressed : Bool)
    (eff : Effects) : Effects :=
  let eff1 :=
    stDisplay (stDisplay eff (.write "**Select the type of YouTube data to retrieve:**"))
      (.radio "Data type" dataOptions)
  if fetchPressed then renderOutcome (fetchBody yt option eff1) else eff1

/-- The client-secret configuration read from `st.secrets["client_secret"]`:
the fields of a Google OAuth client configuration that the authorization URL
depends on. -/
structure ClientSecret where
  clientId : String
  authUri : String
  tokenUri : String
deriving DecidableEq

/-- The scope list `SCOPES` from src/main.py. -/
def SCOPES : List String := ["https://www.googleapis.com/auth/youtube.force-ssl"]

/-- The constant `REDIRECT_URI` from src/main.py. -/
def REDIRECT_URI : String := "https://ytappapi.streamlit.app"

/-- An OAuth flow object as produced by
`google_auth_oauthlib.flow.Flow.from_client_config(...)`: the client
configuration together with the requested scopes and redirect URI. -/
structure Flow where
  clientConfig : ClientSecret
  scopes : List String
  redirectUri : String

/-- `get_flow()` from src/main.py: build the flow from the stored secrets,
the fixed `SCOPES` and the fixed `REDIRECT_URI`. -/
def get_flow (secrets : ClientSecret) : Flow :=
  ⟨secrets, SCOPES, REDIRECT_URI⟩

/-- Modelled from the spec: `Flow.authorization_url` is implemented by the
third-party `google_auth_oauthlib` library, not by this repository.  Per the
spec it is a deterministic function of the static client configuration, the
fixed scope set and the redirect target — no other state, no failure modes —
and the produced URL carries the configured scopes and redirect URI as query
parameters (scopes space-separated, as in OAuth 2.0).  Percent-encoding and
the returned `state` value are not modelled.  `prompt` is the keyword
argument passed at the call site (`prompt="consent"`). -/
def authorization_url (flow : Flow) (prompt : String) : String :=
  flow.clientConfig.authUri
    ++ "?client_id=" ++ flow.clientConfig.clientId
    ++ "&redirect_uri=" ++ flow.redirectUri
    ++ "&scope=" ++ String.intercalate " " flow.scopes
    ++ "&prompt=" ++ prompt

/-- `st.session_state` as used by the app: the `"credentials"` key, absent
until a successful token exchange stores the credential bundle. -/
structure SessionState where
  credentials : Option Credentials

/-- The URL query parameters (`st.experimental_get_query_params()`):
each parameter name maps to its list of values. -/
def QueryParams : Type := List (String × List String)

/-- `"code" in query_params` / `query_params["code"]`. -/
def lookupParam : List (String × List String) → String → Option (List String)
  | [], _ => none
  | (k, vs) :: rest, key => if k = key then some vs else lookupParam rest key

/-- The environment of one page load: the stored secrets, the behaviour of the
external token endpoint (`flow.fetch_token`, a library call: success yields
the credential bundle `flow.credentials`, failure raises with a message), the
behaviour of the external API under given credentials, and the widget values
the user chose on this run. -/
structure PageEnv where
  secrets : ClientSecret
  fetchToken : Flow → String → Except String Credentials
  api : Credentials → ApiRequest → ExecResult
  radioChoice : String
  fetchPressed : Bool

/-- `build_youtube_client(credentials)` from src/main.py: wrap the credentials
into an authenticated client whose request execution is the external API's
behaviour under those credentials. -/
def build_youtube_client (api : Credentials → ApiRequest → ExecResult)
    (credentials : Credentials) : Youtube :=
  ⟨credentials, api credentials⟩

/-- The result of one page load of `main()`: the session state and URL query
parameters afterwards, plus the logged effects. -/
structure PageResult where
  session : SessionState
  queryParams : List (String × List String)
  effects : Effects

/-- `main()` from src/main.py, as a function of the page environment and the
state that persists across page loads (session state and URL query
parameters).  Branch structure follows the source: if credentials are in the
session, show the data options; otherwise, with no `code` parameter, show the
authorization link; with a `code` parameter, attempt the token exchange, and
on success store the credentials, clear the query parameters and show the
data options, while on failure display the token error. -/
def main (env : PageEnv) (session : SessionState)
    (qp : List (String × List String)) : PageResult :=
  let eff0 : Effects := ⟨[], [.title "YouTube Activity Retriever"]⟩
  match session.credentials with
  | some creds =>
    let eff1 := stDisplay eff0 (.success "Already authenticated with YouTube!")
    let yt := build_youtube_client env.api creds
    let eff2 := show_data_options yt env.radioChoice env.fetchPressed eff1
    ⟨session, qp, eff2⟩
  | none =>
    match lookupParam qp "code" with
    | none =>
      let flow := get_flow env.secrets
      let authUrl := authorization_url flow "consent"
      let eff1 := stDisplay eff0 (.markdown ("[Authorize with Google](" ++ authUrl ++ ")"))
      let eff2 := stDisplay eff1 (.info "Click the link above to authorize the app to access your YouTube data.")
      ⟨session, qp, eff2⟩
    | some codes =>
      -- `code = query_params["code"][0]`; Streamlit only reports a parameter
      -- as present with a non-empty value list.
      let code := codes.headD ""
      let flow := get_flow env.secrets
      match env.fetchToken flow code with
      | .ok creds =>
        -- fetch_token succeeded: store tokens, clear the code from the URL,
        -- announce success and show the data options.
        let session1 : SessionState := ⟨some creds⟩
        let qp1 : List (String × List String) := []
        let eff1 := stDisplay eff0 (.success "Successfully authenticated!")
        let yt := build_youtube_client env.api creds
        let eff2 := show_data_options yt env.radioChoice env.fetchPressed eff1
        ⟨session1, qp1, eff2⟩
      | .error e =>
        -- fetch_token raised: the except branch only displays the error; the
        -- session assignment and the query-parameter clearing are never reached.
        ⟨session, qp, stDisplay eff0 (.error ("Error fetching token: " ++ e))⟩

/-! ### Helper lemmas characterizing the effects of the fetchers -/

/-- The endpoints the app's five request constants target. -/
def knownEndpoints : List String :=
  ["videos", "channels", "commentThreads", "playlists", "subscriptions"]

lemma issue_eq (yt : Youtube) (req : ApiRequest) (eff : Effects) :
    issue yt req eff
      = ((match yt.execute req with
          | .ok r => PyResult.ok r
          | .httpError m => .exn (.httpError m)
          | .otherError m => .exn (.other m)),
         ⟨eff.requests ++ [⟨req, yt.credentials.token⟩], eff.displays⟩) := by
  unfold issue
  cases yt.execute req <;> rfl

/-- Effect characterization of `fetch_channel_comments`: it issues the
channels lookup, then at most one comment-threads request; the only display it
may add is the no-channel warning, and the no-channel warning appears exactly
when the result is `ok none`. -/
lemma fetch_channel_comments_spec (yt : Youtube) (eff : Effects) :
    ∃ (res : PyResult (Option Json)) (reqs : List IssuedRequest) (ds : List Display),
      fetch_channel_comments yt eff = (res, ⟨eff.requests ++ reqs, eff.displays ++ ds⟩)
      ∧ (∀ r ∈ reqs, r.token = yt.credentials.token ∧ r.req.endpoint ∈ knownEndpoints)
      ∧ (reqs = [⟨channelsListRequest, yt.credentials.token⟩]
         ∨ ∃ cid, reqs = [⟨channelsListRequest, yt.credentials.token⟩,
                          ⟨commentThreadsRequest cid, yt.credentials.token⟩])
      ∧ (ds = [] ∨ ds = [.warning "No channel found for this account."])
      ∧ (res = .ok none ↔ ds = [.warning "No channel found for this account."]) := by
  unfold fetch_channel_comments
  rw [issue_eq]
  cases hc : yt.execute channelsListRequest with
  | httpError m =>
    refine ⟨.exn (.httpError m), [⟨channelsListRequest, yt.credentials.token⟩], [],
      by simp, by simp [channelsListRequest, knownEndpoints], .inl rfl, .inl rfl, by simp⟩
  | otherError m =>
    refine ⟨.exn (.other m), [⟨channelsListRequest, yt.credentials.token⟩], [],
      by simp, by simp [channelsListRequest, knownEndpoints], .inl rfl, .inl rfl, by simp⟩
  | ok resp =>
    simp only
    cases hg : jsonGet resp "items" (Json.arr []) with
    | exn e =>
      refine ⟨.exn e, [⟨channelsListRequest, yt.credentials.token⟩], [],
        by simp, by simp [channelsListRequest, knownEndpoints], .inl rfl, .inl rfl, by simp⟩
    | ok items =>
      simp only
      by_cases hf : items.isFalsy
      · refine ⟨.ok none, [⟨channelsListRequest, yt.credentials.token⟩],
          [.warning "No channel found for this account."], ?_, ?_, .inl rfl, .inr rfl, by simp⟩
        · simp [hf, stDisplay]
        · simp [channelsListRequest, knownEndpoints]
      · simp only [hf, if_neg, Bool.false_eq_true, not_false_eq_true]
        cases h0 : items.index0 with
        | exn e =>
          refine ⟨.exn e, [⟨channelsListRequest, yt.credentials.token⟩], [],
            by simp [hf], by simp [channelsListRequest, knownEndpoints], .inl rfl, .inl rfl, by simp⟩
        | ok item0 =>
          simp only
          cases hid : item0.subscript "id" with
          | exn e =>
            refine ⟨.exn e, [⟨channelsListRequest, yt.credentials.token⟩], [],
              by simp [hf], by simp [channelsListRequest, knownEndpoints], .inl rfl, .inl rfl, by simp⟩
          | ok channelId =>
            simp only
            rw [issue_eq]
            cases ht : yt.execute (commentThreadsRequest channelId) with
            | ok r =>
              refine ⟨.ok (some r),
                [⟨channelsListRequest, yt.credentials.token⟩,
                 ⟨commentThreadsRequest channelId, yt.credentials.token⟩], [],
                ?_, ?_, .inr ⟨channelId, rfl⟩, .inl rfl, by simp⟩
              · simp [hf]
              · simp [channelsListRequest, commentThreadsRequest, knownEndpoints]
            | httpError m =>
              refine ⟨.exn (.httpError m),
                [⟨channelsListRequest, yt.credentials.token⟩,
                 ⟨commentThreadsRequest channelId, yt.credentials.token⟩], [],
                ?_, ?_, .inr ⟨channelId, rfl⟩, .inl rfl, by simp⟩
              · simp [hf]
              · simp [channelsListRequest, commentThreadsRequest, knownEndpoints]
            | otherError m =>
              refine ⟨.exn (.other m),
                [⟨channelsListRequest, yt.credentials.token⟩,
                 ⟨commentThreadsRequest channelId, yt.credentials.token⟩], [],
                ?_, ?_, .inr ⟨channelId, rfl⟩, .inl rfl, by simp⟩
              · simp [hf]
              · simp [channelsListRequest, commentThreadsRequest, knownEndpoints]

lemma warning_ds_no_error {ds : List Display}
    (hds : ds = [] ∨ ds = [.warning "No channel found for this account."]) :
    ∀ s, Display.error s ∈ ds → False := by
  rcases hds with rfl | rfl <;> simp

/-- Effect characterization of the dispatch body: every request it issues is
made under the client's token against one of the app's endpoints, and the only
error display it can add itself is the invalid-option message (unreachable
when the option is one of the radio choices). -/
lemma fetchBody_spec (yt : Youtube) (option : String) (eff : Effects) :
    ∃ (res : PyResult TryOutcome) (reqs : List IssuedRequest) (ds : List Display),
      fetchBody yt option eff = (res, ⟨eff.requests ++ reqs, eff.displays ++ ds⟩)
      ∧ (∀ r ∈ reqs, r.token = yt.credentials.token ∧ r.req.endpoint ∈ knownEndpoints)
      ∧ (∀ s, Display.error s ∈ ds → s = "Invalid option selected.")
      ∧ (option ∈ dataOptions → ∀ s, Display.error s ∈ ds → False) := by
  unfold fetchBody
  by_cases h1 : option = "Liked Videos"
  · subst h1
    rw [if_pos rfl]
    simp only [fetch_liked_videos]
    rw [issue_eq]
    cases hx : yt.execute likedVideosRequest with
    | ok r =>
      exact ⟨.ok (.gotResponse (some r)), [⟨likedVideosRequest, yt.credentials.token⟩], [],
        by simp, by simp [likedVideosRequest, knownEndpoints], by simp, by simp⟩
    | httpError m =>
      exact ⟨.exn (.httpError m), [⟨likedVideosRequest, yt.credentials.token⟩], [],
        by simp, by simp [likedVideosRequest, knownEndpoints], by simp, by simp⟩
    | otherError m =>
      exact ⟨.exn (.other m), [⟨likedVideosRequest, yt.credentials.token⟩], [],
        by simp, by simp [likedVideosRequest, knownEndpoints], by simp, by simp⟩
  · rw [if_neg h1]
    by_cases h2 : option = "Comments"
    · subst h2
      rw [if_pos rfl]
      rcases fetch_channel_comments_spec yt eff with ⟨res, reqs, ds, heq, htok, -, hds, -⟩
      rw [heq]
      cases res with
      | ok r =>
        exact ⟨.ok (.gotResponse r), reqs, ds, by simp, htok,
          fun s hs => ((warning_ds_no_error hds s hs).elim),
          fun _ s hs => warning_ds_no_error hds s hs⟩
      | exn e =>
        exact ⟨.exn e, reqs, ds, by simp, htok,
          fun s hs => ((warning_ds_no_error hds s hs).elim),
          fun _ s hs => warning_ds_no_error hds s hs⟩
    · rw [if_neg h2]
      by_cases h3 : option = "Shares (Placeholder)"
      · subst h3
        rw [if_pos rfl]
        exact ⟨.ok .returned, [],
          [.warning "YouTube API does not provide direct 'Shares' data."],
          by simp [stDisplay], by simp, by simp, by simp⟩
      · rw [if_neg h3]
        by_cases h4 : option = "Playlists"
        · subst h4
          rw [if_pos rfl]
          simp only [fetch_playlists]
          rw [issue_eq]
          cases hx : yt.execute playlistsRequest with
          | ok r =>
            exact ⟨.ok (.gotResponse (some r)), [⟨playlistsRequest, yt.credentials.token⟩], [],
              by simp, by simp [playlistsRequest, knownEndpoints], by simp, by simp⟩
          | httpError m =>
            exact ⟨.exn (.httpError m), [⟨playlistsRequest, yt.credentials.token⟩], [],
              by simp, by simp [playlistsRequest, knownEndpoints], by simp, by simp⟩
          | otherError m =>
            exact ⟨.exn (.other m), [⟨playlistsRequest, yt.credentials.token⟩], [],
              by simp, by simp [playlistsRequest, knownEndpoints], by simp, by simp⟩
        · rw [if_neg h4]
          by_cases h5 : option = "Subscriptions"
          · subst h5
            rw [if_pos rfl]
            simp only [fetch_subscriptions]
            rw [issue_eq]
            cases hx : yt.execute subscriptionsRequest with
            | ok r =>
              exact ⟨.ok (.gotResponse (some r)),
                [⟨subscriptionsRequest, yt.credentials.token⟩], [],
                by simp, by simp [subscriptionsRequest, knownEndpoints], by simp, by simp⟩
            | httpError m =>
              exact ⟨.exn (.httpError m),
                [⟨subscriptionsRequest, yt.credentials.token⟩], [],
                by simp, by simp [subscriptionsRequest, knownEndpoints], by simp, by simp⟩
            | otherError m =>
              exact ⟨.exn (.other m),
                [⟨subscriptionsRequest, yt.credentials.token⟩], [],
                by simp, by simp [subscriptionsRequest, knownEndpoints], by simp, by simp⟩
          · rw [if_neg h5]
            refine ⟨.ok .returned, [], [.error "Invalid option selected."],
              by simp [stDisplay], by simp, by simp, ?_⟩
            intro hmem
            exact absurd hmem (by simp [dataOptions, h1, h2, h3, h4, h5])

/-- Effect characterization of `renderOutcome`: it only appends displays, and
the only error displays it appends are of the two documented classes. -/
lemma renderOutcome_spec (res : PyResult TryOutcome) (E : Effects) :
    ∃ ds', renderOutcome (res, E) = ⟨E.requests, E.displays ++ ds'⟩
      ∧ (∀ s, Display.error s ∈ ds' →
          (∃ m, s = "HTTP error: " ++ m) ∨ (∃ m, s = "Unexpected error: " ++ m)) := by
  cases res with
  | ok t =>
    cases t with
    | returned => exact ⟨[], by simp [renderOutcome], by simp⟩
    | gotResponse r =>
      cases r with
      | some j => exact ⟨[.json j], by simp [renderOutcome, stDisplay], by simp⟩
      | none =>
        exact ⟨[.warning "No data returned. Possibly the data is private or unavailable."],
          by simp [renderOutcome, stDisplay], by simp⟩
  | exn e =>
    cases e with
    | httpError m =>
      refine ⟨[.error ("HTTP error: " ++ m)], by simp [renderOutcome, stDisplay], ?_⟩
      intro s hs
      simp only [List.mem_singleton, Display.error.injEq] at hs
      exact .inl ⟨m, hs⟩
    | other m =>
      refine ⟨[.error ("Unexpected error: " ++ m)], by simp [renderOutcome, stDisplay], ?_⟩
      intro s hs
      simp only [List.mem_singleton, Display.error.injEq] at hs
      exact .inr ⟨m, hs⟩

/-- Effect characterization of `show_data_options`: it renders the prompt and
the radio widget, every API request it issues carries the client's token and
targets one of the app's endpoints, and every error display it adds is the
invalid-option message or one of the two failure classes (when the option is
one of the radio choices, only the two failure classes). -/
lemma show_data_options_spec (yt : Youtube) (option : String) (pressed : Bool)
    (eff : Effects) :
    ∃ (reqs : List IssuedRequest) (ds : List Display),
      show_data_options yt option pressed eff
        = ⟨eff.requests ++ reqs,
           eff.displays
             ++ (Display.write "**Select the type of YouTube data to retrieve:**"
                 :: Display.radio "Data type" dataOptions :: ds)⟩
      ∧ (∀ r ∈ reqs, r.token = yt.credentials.token ∧ r.req.endpoint ∈ knownEndpoints)
      ∧ (∀ s, Display.error s ∈ ds →
          s = "Invalid option selected."
          ∨ (∃ m, s = "HTTP error: " ++ m) ∨ (∃ m, s = "Unexpected error: " ++ m))
      ∧ (option ∈ dataOptions → ∀ s, Display.error s ∈ ds →
          (∃ m, s = "HTTP error: " ++ m) ∨ (∃ m, s = "Unexpected error: " ++ m)) := by
  unfold show_data_options
  cases pressed with
  | false =>
    refine ⟨[], [], ?_, by simp, by simp, by simp⟩
    simp [stDisplay]
  | true =>
    simp only [if_true]
    rcases fetchBody_spec yt option
        (stDisplay (stDisplay eff (.write "**Select the type of YouTube data to retrieve:**"))
          (.radio "Data type" dataOptions)) with ⟨res, reqs, ds, heq, htok, herr, herropt⟩
    rw [heq]
    rcases renderOutcome_spec res
        ⟨(stDisplay (stDisplay eff (.write "**Select the type of YouTube data to retrieve:**"))
            (.radio "Data type" dataOptions)).requests ++ reqs,
         (stDisplay (stDisplay eff (.write "**Select the type of YouTube data to retrieve:**"))
            (.radio "Data type" dataOptions)).displays ++ ds⟩ with ⟨ds', heq2, hcls⟩
    rw [heq2]
    refine ⟨reqs, ds ++ ds', ?_, htok, ?_, ?_⟩
    · simp [stDisplay]
    · intro s hs
      rcases List.mem_append.mp hs with hs | hs
      · exact .inl (herr s hs)
      · exact .inr (hcls s hs)
    · intro hmem s hs
      rcases List.mem_append.mp hs with hs | hs
      · exact absurd hs (herropt hmem s)
      · exact hcls s hs

/-! ### Claim theorems -/

/-- C1: Every resource fetch function issues its documented fixed request
parameters: the liked-videos fetch uses part="snippet,contentDetails" with
myRating="like", the subscriptions and playlists fetches use
part="snippet,contentDetails" with mine=True, the comment-threads fetch uses
part="snippet" with the user's channel id, and each of these list calls uses
maxResults=10 with no pagination (each fetch issues its call exactly once). -/
theorem fetch_functions_issue_fixed_params :
    (∀ (yt : Youtube) (eff : Effects),
      (fetch_liked_videos yt eff).2
        = ⟨eff.requests ++ [⟨likedVideosRequest, yt.credentials.token⟩], eff.displays⟩)
    ∧ (∀ (yt : Youtube) (eff : Effects),
      (fetch_subscriptions yt eff).2
        = ⟨eff.requests ++ [⟨subscriptionsRequest, yt.credentials.token⟩], eff.displays⟩)
    ∧ (∀ (yt : Youtube) (eff : Effects),
      (fetch_playlists yt eff).2
        = ⟨eff.requests ++ [⟨playlistsRequest, yt.credentials.token⟩], eff.displays⟩)
    ∧ (∀ (yt : Youtube) (eff : Effects),
      ∃ tail, (fetch_channel_comments yt eff).2.requests
          = eff.requests ++ ⟨channelsListRequest, yt.credentials.token⟩ :: tail
        ∧ (tail = [] ∨ ∃ cid, tail = [⟨commentThreadsRequest cid, yt.credentials.token⟩]))
    ∧ likedVideosRequest.part = "snippet,contentDetails"
    ∧ likedVideosRequest.myRating = some "like"
    ∧ likedVideosRequest.maxResults = some 10
    ∧ subscriptionsRequest.part = "snippet,contentDetails"
    ∧ subscriptionsRequest.mine = some true
    ∧ subscriptionsRequest.maxResults = some 10
    ∧ playlistsRequest.part = "snippet,contentDetails"
    ∧ playlistsRequest.mine = some true
    ∧ playlistsRequest.maxResults = some 10
    ∧ (∀ cid : Json,
      (commentThreadsRequest cid).part = "snippet"
      ∧ (commentThreadsRequest cid).allThreadsRelatedToChannelId = some cid
      ∧ (commentThreadsRequest cid).maxResults = some 10) := by
  refine ⟨?_, ?_, ?_, ?_, rfl, rfl, rfl, rfl, rfl, rfl, rfl, rfl, rfl,
    fun cid => ⟨rfl, rfl, rfl⟩⟩
  · intro yt eff
    simp only [fetch_liked_videos]
    rw [issue_eq]
  · intro yt eff
    simp only [fetch_subscriptions]
    rw [issue_eq]
  · intro yt eff
    simp only [fetch_playlists]
    rw [issue_eq]
  · intro yt eff
    rcases fetch_channel_comments_spec yt eff with ⟨res, reqs, ds, heq, -, hshape, -, -⟩
    rcases hshape with rfl | ⟨cid, rfl⟩
    · exact ⟨[], by rw [heq], .inl rfl⟩
    · exact ⟨[⟨commentThreadsRequest cid, yt.credentials.token⟩], by rw [heq],
        .inr ⟨cid, rfl⟩⟩

/-- C5: Selecting the "Shares (Placeholder)" option never issues a network
call: the dispatcher displays a warning and returns without invoking any
fetch function or rendering a JSON response. -/
theorem shares_placeholder_no_network_call (yt : Youtube) (eff : Effects) :
    show_data_options yt "Shares (Placeholder)" true eff
      = ⟨eff.requests,
         eff.displays ++ [.write "**Select the type of YouTube data to retrieve:**",
                          .radio "Data type" dataOptions,
                          .warning "YouTube API does not provide direct 'Shares' data."]⟩
    ∧ (show_data_options yt "Shares (Placeholder)" true eff).requests = eff.requests := by
  have h : show_data_options yt "Shares (Placeholder)" true eff
      = ⟨eff.requests,
         eff.displays ++ [.write "**Select the type of YouTube data to retrieve:**",
                          .radio "Data type" dataOptions,
                          .warning "YouTube API does not provide direct 'Shares' data."]⟩ := by
    simp [show_data_options, fetchBody, renderOutcome, stDisplay]
  exact ⟨h, by rw [h]⟩

/-- C2 counterexample: the selector's radio options are exactly the five
literals of the source, with no activities entry of any spelling, and no
activities endpoint is among the endpoints the app's requests target. -/
theorem no_activities_option :
    dataOptions
      = ["Liked Videos", "Comments", "Shares (Placeholder)", "Playlists", "Subscriptions"]
    ∧ "Recent Activities" ∉ dataOptions
    ∧ "Activities" ∉ dataOptions
    ∧ "activities" ∉ knownEndpoints := by
  refine ⟨rfl, by decide, by decide, by decide⟩

/-- C2 amended: the program offers exactly five user-selectable resources —
liked videos, comments, the shares placeholder, playlists, subscriptions —
with no recent-activities option, and no request dispatched by the selector
targets an activities endpoint (every issued request targets one of the five
endpoints videos/channels/commentThreads/playlists/subscriptions). -/
theorem selector_five_options_no_activities :
    dataOptions
      = ["Liked Videos", "Comments", "Shares (Placeholder)", "Playlists", "Subscriptions"]
    ∧ ∀ (yt : Youtube) (option : String) (pressed : Bool) (eff : Effects),
        ∀ r ∈ (show_data_options yt option pressed eff).requests,
          r ∈ eff.requests
          ∨ (r.req.endpoint ∈ knownEndpoints ∧ r.req.endpoint ≠ "activities") := by
  refine ⟨rfl, ?_⟩
  intro yt option pressed eff r hr
  rcases show_data_options_spec yt option pressed eff with ⟨reqs, ds, heq, htok, -, -⟩
  rw [heq] at hr
  simp only [List.mem_append] at hr
  rcases hr with hr | hr
  · exact .inl hr
  · refine .inr ⟨(htok r hr).2, ?_⟩
    intro hact
    have hep := (htok r hr).2
    rw [hact] at hep
    exact absurd hep (by decide)

/-- A concrete API behaviour for witnesses: every request succeeds with the
empty JSON object. -/
def ytOk : Youtube := ⟨⟨"tok", none⟩, fun _ => .ok (.obj [])⟩

lemma ytOk_liked_requests :
    (show_data_options ytOk "Liked Videos" true ⟨[], []⟩).requests
      = [⟨likedVideosRequest, "tok"⟩] := rfl

/-- Witness for the C2 amended theorem at a concrete input. -/
theorem selector_five_options_witness :
    (⟨likedVideosRequest, "tok"⟩ : IssuedRequest)
        ∈ (show_data_options ytOk "Liked Videos" true ⟨[], []⟩).requests
    ∧ ((⟨likedVideosRequest, "tok"⟩ : IssuedRequest) ∈ (Effects.mk [] []).requests
       ∨ (likedVideosRequest.endpoint ∈ knownEndpoints
          ∧ likedVideosRequest.endpoint ≠ "activities")) := by
  have hm : (⟨likedVideosRequest, "tok"⟩ : IssuedRequest)
      ∈ (show_data_options ytOk "Liked Videos" true ⟨[], []⟩).requests := by
    rw [ytOk_liked_requests]
    exact List.mem_singleton.mpr rfl
  exact ⟨hm, selector_five_options_no_activities.2 ytOk "Liked Videos" true ⟨[], []⟩ _ hm⟩

/-- C3: For every fetch dispatched by the selector, an HTTP error raised by
the API call is caught and converted to a displayed error message rather than
a crash, the failing call is issued exactly once (never retried), and error
displays are classified only as "HTTP error" versus "Unexpected error". -/
theorem dispatch_http_error_caught (yt : Youtube) (eff : Effects) (m : String) :
    (yt.execute likedVideosRequest = .httpError m →
      show_data_options yt "Liked Videos" true eff
        = ⟨eff.requests ++ [⟨likedVideosRequest, yt.credentials.token⟩],
           eff.displays ++ [.write "**Select the type of YouTube data to retrieve:**",
                            .radio "Data type" dataOptions,
                            .error ("HTTP error: " ++ m)]⟩)
    ∧ (yt.execute playlistsRequest = .httpError m →
      show_data_options yt "Playlists" true eff
        = ⟨eff.requests ++ [⟨playlistsRequest, yt.credentials.token⟩],
           eff.displays ++ [.write "**Select the type of YouTube data to retrieve:**",
                            .radio "Data type" dataOptions,
                            .error ("HTTP error: " ++ m)]⟩)
    ∧ (yt.execute subscriptionsRequest = .httpError m →
      show_data_options yt "Subscriptions" true eff
        = ⟨eff.requests ++ [⟨subscriptionsRequest, yt.credentials.token⟩],
           eff.displays ++ [.write "**Select the type of YouTube data to retrieve:**",
                            .radio "Data type" dataOptions,
                            .error ("HTTP error: " ++ m)]⟩)
    ∧ (yt.execute channelsListRequest = .httpError m →
      show_data_options yt "Comments" true eff
        = ⟨eff.requests ++ [⟨channelsListRequest, yt.credentials.token⟩],
           eff.displays ++ [.write "**Select the type of YouTube data to retrieve:**",
                            .radio "Data type" dataOptions,
                            .error ("HTTP error: " ++ m)]⟩)
    ∧ (∀ option ∈ dataOptions, ∀ s,
        Display.error s ∈ (show_data_options yt option true eff).displays →
          Display.error s ∈ eff.displays
          ∨ (∃ m2, s = "HTTP error: " ++ m2) ∨ (∃ m2, s = "Unexpected error: " ++ m2)) := by
  refine ⟨?_, ?_, ?_, ?_, ?_⟩
  · intro h
    simp [show_data_options, fetchBody, fetch_liked_videos, issue, renderOutcome, stDisplay, h]
  · intro h
    simp [show_data_options, fetchBody, fetch_playlists, issue, renderOutcome, stDisplay, h]
  · intro h
    simp [show_data_options, fetchBody, fetch_subscriptions, issue, renderOutcome, stDisplay, h]
  · intro h
    simp [show_data_options, fetchBody, fetch_channel_comments, issue, renderOutcome,
      stDisplay, h]
  · intro option hopt s hs
    rcases show_data_options_spec yt option true eff with ⟨reqs, ds, heq, -, -, herropt⟩
    rw [heq] at hs
    simp only [List.mem_append, List.mem_cons] at hs
    rcases hs with hs | hs | hs | hs
    · exact .inl hs
    · exact absurd hs (by simp)
    · exact absurd hs (by simp)
    · exact .inr (herropt hopt s hs)

/-- A concrete API behaviour for witnesses: every request raises an
`HttpError`. -/
def ytBoom : Youtube := ⟨⟨"tok", none⟩, fun _ => .httpError "boom"⟩

/-- Witness for C3 at a concrete input: the failing liked-videos fetch is
issued once and rendered as an "HTTP error" message. -/
theorem dispatch_http_error_caught_witness :
    ytBoom.execute likedVideosRequest = .httpError "boom"
    ∧ show_data_options ytBoom "Liked Videos" true ⟨[], []⟩
        = ⟨[⟨likedVideosRequest, "tok"⟩],
           [.write "**Select the type of YouTube data to retrieve:**",
            .radio "Data type" dataOptions,
            .error "HTTP error: boom"]⟩ :=
  ⟨rfl, (dispatch_http_error_caught ytBoom ⟨[], []⟩ "boom").1 rfl⟩

/-- C4: When the channels lookup for the comments fetch returns a response
whose items list is empty, the fetch is a soft warning with a `None` result —
a warning is displayed, no comment-threads call is issued — and the dispatcher
renders the no-data warning instead of JSON output. -/
theorem missing_channel_soft_warning (yt : Youtube) (eff : Effects)
    (resp items : Json)
    (hc : yt.execute channelsListRequest = .ok resp)
    (hg : jsonGet resp "items" (Json.arr []) = .ok items)
    (hf : items.isFalsy = true) :
    fetch_channel_comments yt eff
      = (.ok none,
         ⟨eff.requests ++ [⟨channelsListRequest, yt.credentials.token⟩],
          eff.displays ++ [.warning "No channel found for this account."]⟩)
    ∧ show_data_options yt "Comments" true eff
        = ⟨eff.requests ++ [⟨channelsListRequest, yt.credentials.token⟩],
           eff.displays ++ [.write "**Select the type of YouTube data to retrieve:**",
                            .radio "Data type" dataOptions,
                            .warning "No channel found for this account.",
                            .warning "No data returned. Possibly the data is private or unavailable."]⟩ := by
  have h1 : ∀ eff' : Effects, fetch_channel_comments yt eff'
      = (.ok none,
         ⟨eff'.requests ++ [⟨channelsListRequest, yt.credentials.token⟩],
          eff'.displays ++ [.warning "No channel found for this account."]⟩) := by
    intro eff'
    unfold fetch_channel_comments
    rw [issue_eq, hc]
    simp only [hg, hf, if_pos, stDisplay]
  refine ⟨h1 eff, ?_⟩
  simp [show_data_options, fetchBody, renderOutcome, stDisplay, h1]

/-- A concrete API behaviour for witnesses: every request succeeds with a
response whose items list is empty. -/
def ytNoChannel : Youtube := ⟨⟨"tok", none⟩, fun _ => .ok (.obj [("items", .arr [])])⟩

/-- Witness for C4 at a concrete input: an account with no channel produces
the soft warning and a `None` result, with no comment-threads call. -/
theorem missing_channel_soft_warning_witness :
    ytNoChannel.execute channelsListRequest = .ok (.obj [("items", .arr [])])
    ∧ jsonGet (.obj [("items", .arr [])]) "items" (Json.arr []) = .ok (.arr [])
    ∧ (Json.arr []).isFalsy = true
    ∧ fetch_channel_comments ytNoChannel ⟨[], []⟩
        = (.ok none,
           ⟨[⟨channelsListRequest, "tok"⟩],
            [.warning "No channel found for this account."]⟩) :=
  ⟨rfl, rfl, rfl,
   (missing_channel_soft_warning ytNoChannel ⟨[], []⟩ (.obj [("items", .arr [])])
      (.arr []) rfl rfl rfl).1⟩

/-! ### Helper lemmas for `main`, and concrete environments for witnesses -/

lemma main_authenticated (env : PageEnv) (creds : Credentials)
    (session : SessionState) (qp : List (String × List String))
    (hs : session.credentials = some creds) :
    main env session qp
      = ⟨session, qp,
         show_data_options (build_youtube_client env.api creds) env.radioChoice
           env.fetchPressed
           ⟨[], [.title "YouTube Activity Retriever",
                 .success "Already authenticated with YouTube!"]⟩⟩ := by
  simp only [main, hs, stDisplay, List.singleton_append]

lemma main_exchange_success (env : PageEnv) (session : SessionState)
    (qp : List (String × List String)) (codes : List String) (creds : Credentials)
    (hs : session.credentials = none)
    (hq : lookupParam qp "code" = some codes)
    (hx : env.fetchToken (get_flow env.secrets) (codes.headD "") = .ok creds) :
    main env session qp
      = ⟨⟨some creds⟩, [],
         show_data_options (build_youtube_client env.api creds) env.radioChoice
           env.fetchPressed
           ⟨[], [.title "YouTube Activity Retriever",
                 .success "Successfully authenticated!"]⟩⟩ := by
  simp only [main, hs, hq, hx, stDisplay, List.singleton_append]

lemma main_exchange_failure (env : PageEnv) (session : SessionState)
    (qp : List (String × List String)) (codes : List String) (e : String)
    (hs : session.credentials = none)
    (hq : lookupParam qp "code" = some codes)
    (hx : env.fetchToken (get_flow env.secrets) (codes.headD "") = .error e) :
    main env session qp
      = ⟨session, qp,
         ⟨[], [.title "YouTube Activity Retriever",
               .error ("Error fetching token: " ++ e)]⟩⟩ := by
  simp only [main, hs, hq, hx, stDisplay, List.singleton_append]

lemma show_data_options_tokens (yt : Youtube) (o : String) (p : Bool)
    (ds0 : List Display) :
    ∀ r ∈ (show_data_options yt o p ⟨[], ds0⟩).requests,
      r.token = yt.credentials.token := by
  intro r hr
  rcases show_data_options_spec yt o p ⟨[], ds0⟩ with ⟨reqs, ds, heq, htok, -, -⟩
  rw [heq] at hr
  simp only [List.nil_append] at hr
  exact (htok r hr).1

/-- A concrete client configuration for witnesses. -/
def cSecrets : ClientSecret :=
  ⟨"client-id-1", "https://accounts.google.com/o/oauth2/auth",
   "https://oauth2.googleapis.com/token"⟩

/-- A concrete credential bundle for witnesses. -/
def cCreds : Credentials := ⟨"access-token-1", some "refresh-token-1"⟩

/-- A concrete page environment whose token exchange fails. -/
def cFailEnv : PageEnv :=
  ⟨cSecrets, fun _ _ => .error "invalid_grant", fun _ _ => .ok (.obj []),
   "Liked Videos", false⟩

/-- A concrete page environment whose token exchange succeeds with `cCreds`. -/
def cOkEnv : PageEnv :=
  ⟨cSecrets, fun _ _ => .ok cCreds, fun _ _ => .ok (.obj []),
   "Liked Videos", false⟩

/-- C6 counterexample: a page load in which the token exchange runs but fails
leaves the `code` query parameter in the URL (the clearing line is only
reached on success), so it is not the case that the query parameters no
longer contain the code after every page load in which the exchange runs. -/
theorem code_not_cleared_on_failed_exchange :
    lookupParam (main cFailEnv ⟨none⟩ [("code", ["4/abc"])]).queryParams "code"
      = some ["4/abc"]
    ∧ (main cFailEnv ⟨none⟩ [("code", ["4/abc"])]).effects.displays
      = [.title "YouTube Activity Retriever",
         .error "Error fetching token: invalid_grant"] := ⟨rfl, rfl⟩

/-- C6 amended: the `code` query parameter is cleared from the URL after a
successful token exchange — on such a page load the query parameters no
longer contain the code afterwards; after a failed exchange the code remains
in the URL. -/
theorem code_cleared_on_successful_exchange (env : PageEnv)
    (session : SessionState) (qp : List (String × List String))
    (codes : List String) (creds : Credentials)
    (hs : session.credentials = none)
    (hq : lookupParam qp "code" = some codes)
    (hx : env.fetchToken (get_flow env.secrets) (codes.headD "") = .ok creds) :
    (main env session qp).queryParams = []
    ∧ lookupParam (main env session qp).queryParams "code" = none := by
  have h : (main env session qp).queryParams = [] := by
    rw [main_exchange_success env session qp codes creds hs hq hx]
  exact ⟨h, by rw [h]; rfl⟩

/-- Witness for the C6 amended theorem at a concrete input. -/
theorem code_cleared_on_successful_exchange_witness :
    lookupParam [("code", ["4/xyz"])] "code" = some ["4/xyz"]
    ∧ cOkEnv.fetchToken (get_flow cOkEnv.secrets) (["4/xyz"].headD "") = .ok cCreds
    ∧ (main cOkEnv ⟨none⟩ [("code", ["4/xyz"])]).queryParams = [] :=
  ⟨rfl, rfl,
   (code_cleared_on_successful_exchange cOkEnv ⟨none⟩ [("code", ["4/xyz"])]
      ["4/xyz"] cCreds rfl rfl rfl).1⟩

/-- C7: a successful authorization-code exchange stores the credential bundle
(with its non-empty access token) in the session state, and that bundle's
token is the one under which every API call of this page load and of every
subsequent page load in the session is issued. -/
theorem successful_exchange_stores_credentials (env : PageEnv)
    (session : SessionState) (qp : List (String × List String))
    (codes : List String) (creds : Credentials)
    (hs : session.credentials = none)
    (hq : lookupParam qp "code" = some codes)
    (hx : env.fetchToken (get_flow env.secrets) (codes.headD "") = .ok creds)
    (ht : creds.token ≠ "") :
    (main env session qp).session.credentials = some creds
    ∧ (∃ c, (main env session qp).session.credentials = some c ∧ c.token ≠ "")
    ∧ (∀ r ∈ (main env session qp).effects.requests, r.token = creds.token)
    ∧ (∀ (env' : PageEnv) (qp' : List (String × List String)),
        ∀ r ∈ (main env' (main env session qp).session qp').effects.requests,
          r.token = creds.token) := by
  have hm := main_exchange_success env session qp codes creds hs hq hx
  refine ⟨by rw [hm], ⟨creds, by rw [hm], ht⟩, ?_, ?_⟩
  · rw [hm]
    exact show_data_options_tokens (build_youtube_client env.api creds)
      env.radioChoice env.fetchPressed _
  · intro env' qp' r hr
    rw [hm] at hr
    rw [main_authenticated env' creds ⟨some creds⟩ qp' rfl] at hr
    exact show_data_options_tokens (build_youtube_client env'.api creds)
      env'.radioChoice env'.fetchPressed _ r hr

/-- Witness for C7 at a concrete input. -/
theorem successful_exchange_stores_credentials_witness :
    lookupParam [("code", ["4/wxy"])] "code" = some ["4/wxy"]
    ∧ cOkEnv.fetchToken (get_flow cOkEnv.secrets) (["4/wxy"].headD "") = .ok cCreds
    ∧ cCreds.token ≠ ""
    ∧ (main cOkEnv ⟨none⟩ [("code", ["4/wxy"])]).session.credentials = some cCreds :=
  ⟨rfl, rfl, by decide,
   (successful_exchange_stores_credentials cOkEnv ⟨none⟩ [("code", ["4/wxy"])]
      ["4/wxy"] cCreds rfl rfl rfl (by decide)).1⟩

/-- `needle` occurs contiguously inside `hay`. -/
def containsStr (hay needle : String) : Prop :=
  needle.data <:+: hay.data

/-- C8: the authorization URL produced for the sign-in link contains every
configured scope string and the configured redirect URI. -/
theorem auth_url_contains_scopes_and_redirect (secrets : ClientSecret) :
    containsStr (authorization_url (get_flow secrets) "consent") REDIRECT_URI
    ∧ ∀ s ∈ SCOPES, containsStr (authorization_url (get_flow secrets) "consent") s := by
  have hi : String.intercalate " " SCOPES
      = "https://www.googleapis.com/auth/youtube.force-ssl" := rfl
  constructor
  · refine ⟨(secrets.authUri ++ "?client_id=" ++ secrets.clientId
        ++ "&redirect_uri=").data,
      ("&scope=" ++ String.intercalate " " SCOPES ++ "&prompt=" ++ "consent").data, ?_⟩
    simp [authorization_url, get_flow]
  · intro s hs
    simp only [SCOPES, List.mem_singleton] at hs
    subst hs
    refine ⟨(secrets.authUri ++ "?client_id=" ++ secrets.clientId ++ "&redirect_uri="
        ++ REDIRECT_URI ++ "&scope=").data,
      ("&prompt=" ++ "consent").data, ?_⟩
    rw [← hi]
    simp [authorization_url, get_flow]

/-- Witness for C8 at a concrete input. -/
theorem auth_url_contains_scopes_and_redirect_witness :
    ("https://www.googleapis.com/auth/youtube.force-ssl" ∈ SCOPES)
    ∧ containsStr (authorization_url (get_flow cSecrets) "consent")
        "https://www.googleapis.com/auth/youtube.force-ssl"
    ∧ containsStr (authorization_url (get_flow cSecrets) "consent") REDIRECT_URI :=
  ⟨by decide,
   (auth_url_contains_scopes_and_redirect cSecrets).2 _ (by decide),
   (auth_url_contains_scopes_and_redirect cSecrets).1⟩

/-- C9: the authorization URL builder is a deterministic function of the
static client configuration, the fixed scope set and the redirect target (its
only inputs, by its type): two builds from the same configuration produce the
same URL. -/
theorem auth_url_deterministic (s₁ s₂ : ClientSecret) (h : s₁ = s₂) :
    authorization_url (get_flow s₁) "consent"
      = authorization_url (get_flow s₂) "consent" := by
  rw [h]

/-- Witness for C9 at a concrete input. -/
theorem auth_url_deterministic_witness :
    cSecrets = cSecrets
    ∧ authorization_url (get_flow cSecrets) "consent"
        = authorization_url (get_flow cSecrets) "consent" :=
  ⟨rfl, auth_url_deterministic cSecrets cSecrets rfl⟩

/-- C10: if the token exchange fails, the session state is left unchanged —
no credential bundle is stored, no API request is issued — and the only
effect is the displayed token error, so the next page load again takes the
unauthenticated branch (`credentials` absent from the session). -/
theorem failed_exchange_leaves_session_unchanged (env : PageEnv)
    (session : SessionState) (qp : List (String × List String))
    (codes : List String) (e : String)
    (hs : session.credentials = none)
    (hq : lookupParam qp "code" = some codes)
    (hx : env.fetchToken (get_flow env.secrets) (codes.headD "") = .error e) :
    main env session qp
      = ⟨session, qp,
         ⟨[], [.title "YouTube Activity Retriever",
               .error ("Error fetching token: " ++ e)]⟩⟩
    ∧ (main env session qp).session.credentials = none
    ∧ (main env session qp).effects.requests = [] := by
  have hm := main_exchange_failure env session qp codes e hs hq hx
  exact ⟨hm, by rw [hm]; exact hs, by rw [hm]⟩

/-- Witness for C10 at a concrete input. -/
theorem failed_exchange_leaves_session_unchanged_witness :
    (⟨none⟩ : SessionState).credentials = none
    ∧ lookupParam [("code", ["4/abc"])] "code" = some ["4/abc"]
    ∧ cFailEnv.fetchToken (get_flow cFailEnv.secrets) (["4/abc"].headD "")
        = .error "invalid_grant"
    ∧ (main cFailEnv ⟨none⟩ [("code", ["4/abc"])]).effects.requests = [] :=
  ⟨rfl, rfl, rfl,
   (failed_exchange_leaves_session_unchanged cFailEnv ⟨none⟩ [("code", ["4/abc"])]
      ["4/abc"] "invalid_grant" rfl rfl rfl).2.2⟩

end Ytapp
